import Mathlib

/-!
Verification of the Petfinder MCP server (`src/simple-mcp-server.ts`) against its
natural-language specification.

The development shallowly embeds the server's data model and operations:

* JavaScript values reaching the handlers are modelled by `JsVal`
  (`undefined`/`null`/numbers/strings/booleans/arrays/objects).  JS numbers are
  modelled as `Int`; the schemas in play only use integer constraints
  (`z.number().int()`), so no claim depends on non-integral numbers.
* Network interaction is modelled by an environment `Env` that fixes the current
  clock (`Date.now()/1000`), the outcome the OAuth token endpoint would produce,
  and the outcome the Petfinder API endpoint would produce.  Each function
  records the network calls it actually performs in an `Effect` trace
  (`tokenFetch` for the OAuth exchange, `apiFetch` for the API call,
  `credentialRead` for header extraction), so "no upstream call occurs" is
  the absence of fetch effects in the trace.
* The mutable module state (the `tokenCache` Map and the `requestContext`
  slot) is threaded explicitly through every function as a state value `St`.
* `throw` is modelled with `Except JsError`; the `try`/`catch`/`finally` in
  `handleMCPRequest` and the transport-level `catch` in `serve.fetch` are
  modelled by matching on the `Except`.
-/

namespace PetfinderMCP

/-! ## JavaScript values -/

/-- A JavaScript value as it can reach `handleMCPRequest`/the tool handlers
after `JSON.parse` (plus `undefined` for absent values). -/
inductive JsVal where
  | undefined
  | null
  | num (n : Int)
  | str (s : String)
  | bool (b : Bool)
  | arr (elems : List JsVal)
  | obj (fields : List (String × JsVal))

/-- Field read on a JS object literal: later duplicate keys shadow earlier
ones, absent keys give `undefined`. -/
def objGetD (fields : List (String × JsVal)) (key : String) : JsVal :=
  (fields.reverse.lookup key).getD JsVal.undefined

/-- Non-throwing property access `v[key]` for a value already known not to be
`undefined`/`null`.  Primitive values have none of the properties the server
reads (`name`, `arguments`, `id`, `type`, `animals`, `organizations`), so they
yield `undefined`. -/
def jsProp (v : JsVal) (key : String) : JsVal :=
  match v with
  | .obj fields => objGetD fields key
  | _ => .undefined

/-- Property access `v.key` as the handlers perform it: reading a property of
`undefined` or `null` throws a `TypeError`. -/
def jsGet (v : JsVal) (key : String) : Except String JsVal :=
  match v with
  | .undefined => .error ("Cannot read properties of undefined (reading " ++ key ++ ")")
  | .null => .error ("Cannot read properties of null (reading " ++ key ++ ")")
  | w => .ok (jsProp w key)

mutual

/-- JS string coercion `String(v)` as used by template literals
(endpoint interpolation such as `/animals/(id)`). -/
def jsToString : JsVal → String
  | .undefined => "undefined"
  | .null => "null"
  | .num n => toString n
  | .str s => s
  | .bool b => if b then "true" else "false"
  | .arr xs => jsToStringElems xs
  | .obj _ => "[object Object]"

/-- Array coercion: `Array.prototype.toString` joins elements with commas,
rendering `null`/`undefined` elements as the empty string (hence
`jsToStringOne` repeats the other cases of `jsToString`). -/
def jsToStringElems : List JsVal → String
  | [] => ""
  | [x] => jsToStringOne x
  | x :: xs => jsToStringOne x ++ "," ++ jsToStringElems xs
termination_by structural xs => xs

def jsToStringOne : JsVal → String
  | .undefined => ""
  | .null => ""
  | .num n => toString n
  | .str s => s
  | .bool b => if b then "true" else "false"
  | .arr xs => jsToStringElems xs
  | .obj _ => "[object Object]"
termination_by structural v => v

end

mutual

/-- `JSON.stringify` as used to render an upstream payload into a text content
block.  (The source passes `null, 2` for pretty printing and JSON string
escaping; neither the indentation nor escaping is observed by any claim, so
they are not reproduced.) -/
def jsStringify : JsVal → String
  | .undefined => "undefined"
  | .null => "null"
  | .num n => toString n
  | .str s => "\"" ++ s ++ "\""
  | .bool b => if b then "true" else "false"
  | .arr xs => "[" ++ jsStringifyElems xs ++ "]"
  | .obj fs => "\x7b" ++ jsStringifyFields fs ++ "\x7d"
termination_by structural v => v

def jsStringifyElems : List JsVal → String
  | [] => ""
  | [x] => jsStringify x
  | x :: xs => jsStringify x ++ "," ++ jsStringifyElems xs
termination_by structural xs => xs

def jsStringifyFields : List (String × JsVal) → String
  | [] => ""
  | [f] => "\"" ++ f.1 ++ "\":" ++ jsStringify f.2
  | f :: fs => "\"" ++ f.1 ++ "\":" ++ jsStringify f.2 ++ "," ++ jsStringifyFields fs
termination_by structural fs => fs

end

/-- JS object spread `(...defaults, ...input)`: the input's own fields override
the defaults.  Spreading a non-object contributes no fields relevant to any
schema (string/array spreads only create numeric index keys, and the schema
field names are all non-numeric). -/
def spreadMerge (defaults : List (String × JsVal)) (input : JsVal) : JsVal :=
  match input with
  | .obj fields => .obj ((defaults.filter fun d => fields.all fun f => f.1 ≠ d.1) ++ fields)
  | _ => .obj defaults

/-- JS truthiness of a `string | null | undefined` value (`!v`):
falsy exactly when absent or the empty string. -/
def optTruthy : Option String → Bool
  | none => false
  | some s => s ≠ ""

/-! ## OAuth token management (lines 32-117 of the source) -/

/-- `interface TokenCache` entry: `{access_token, expires_at}` (unix s). -/
structure TokenEntry where
  access_token : String
  expires_at : Int
deriving DecidableEq

/-- The module-level `tokenCache : Map<string, TokenCache>`, keyed by client
id.  A JS `Map` has unique keys, modelled as a partial function. -/
def TokenMap : Type := String → Option TokenEntry

/-- The empty token cache. -/
def emptyTokenMap : TokenMap := fun _ => none

/-- `tokenCache.set(clientId, newToken)`: fully replaces any prior entry. -/
def tokenMapSet (m : TokenMap) (key : String) (v : TokenEntry) : TokenMap :=
  fun k => if k = key then some v else m k

/-- `cleanupExpiredTokens()`: delete every entry (for any client id) whose
`expires_at <= now`. -/
def cleanupExpiredTokens (now : Int) (m : TokenMap) : TokenMap :=
  fun k =>
    match m k with
    | some t => if t.expires_at ≤ now then none else some t
    | none => none

/-- Body of a successful token-endpoint response. -/
structure TokenResponse where
  token_type : String
  expires_in : Int
  access_token : String
deriving DecidableEq

/-- Outcome the OAuth token endpoint would produce if called. -/
inductive FetchOutcome where
  | ok (resp : TokenResponse)
  | httpError (status : Int) (statusText : String) (bodyText : String)
deriving DecidableEq

/-- Outcome the Petfinder API endpoint would produce if called:
a parsed JSON body on 2xx, or a non-2xx status with its body text. -/
inductive ApiOutcome where
  | ok (body : JsVal)
  | httpError (status : Int) (statusText : String) (bodyText : String)

/-- The ambient world for one request: the clock and what each upstream
endpoint would answer. -/
structure Env where
  now : Int
  tokenResp : FetchOutcome
  apiResp : ApiOutcome

/-- Observable side effects of handling a request. -/
inductive Effect where
  | credentialRead
  | tokenFetch (clientId : String)
  | apiFetch (endpoint : String)
deriving DecidableEq

/-- A thrown JS error: a plain `Error`/`TypeError` with a message, a thrown
`ZodError` (list of field-path/message issues), or a `PetfinderAPIError`
carrying the upstream HTTP status, status text, body and message. -/
inductive JsError where
  | plain (message : String)
  | zod (issues : List (String × String))
  | api (status : Int) (statusText : String) (bodyText : String) (message : String)
deriving DecidableEq

/-- `ZodError#message`: a rendering of the field-level issues. -/
def zodMessage (issues : List (String × String)) : String :=
  String.intercalate "; " (issues.map fun i => i.1 ++ ": " ++ i.2)

/-- Result of a `getAccessToken` call: the returned token or thrown error,
the token cache afterwards, and the network calls performed. -/
structure TokenStep where
  result : Except JsError String
  cache : TokenMap
  effects : List Effect

/-- Message of the error thrown when either credential is missing/empty. -/
def missingCredsMsg : String :=
  "Missing Petfinder credentials. Provide x-petfinder-client-id and x-petfinder-client-secret headers."

/-- The client-credentials exchange against `/oauth2/token` (lines 77-116):
on success the token is cached keyed by the client id with
`expires_at = now + expires_in`; on a non-2xx response a
`PetfinderAPIError` is thrown. -/
def fetchNewToken (clientId : String) (now : Int) (env : Env) (cache : TokenMap) : TokenStep :=
  match env.tokenResp with
  | .ok resp =>
    let newToken : TokenEntry := ⟨resp.access_token, now + resp.expires_in⟩
    ⟨.ok newToken.access_token, tokenMapSet cache clientId newToken, [.tokenFetch clientId]⟩
  | .httpError status statusText bodyText =>
    ⟨.error (.api status statusText bodyText
        ("OAuth token request failed (" ++ toString status ++ "): " ++ bodyText)),
      cache, [.tokenFetch clientId]⟩

/-- `getAccessToken(clientId, clientSecret)` (lines 57-117): fail fast on
missing credentials, sweep the whole cache, return a cached token while it is
valid beyond the 60 s safety margin, otherwise perform the exchange. -/
def getAccessToken (clientId clientSecret : String) (env : Env) (cache : TokenMap) : TokenStep :=
  let now := env.now
  if clientId = "" ∨ clientSecret = "" then
    ⟨.error (.plain missingCredsMsg), cache, []⟩
  else
    let cache1 := cleanupExpiredTokens now cache
    match cache1 clientId with
    | some cachedToken =>
      if cachedToken.expires_at > now + 60 then
        ⟨.ok cachedToken.access_token, cache1, []⟩
      else
        fetchNewToken clientId now env cache1
    | none => fetchNewToken clientId now env cache1

/-! ## Request context and the upstream client (lines 175-257) -/

/-- The module-level mutable slot
`let requestContext: { clientId?: string; clientSecret?: string } = {}`. -/
structure RequestContext where
  clientId : Option String
  clientSecret : Option String
deriving DecidableEq

/-- `requestContext = {}`. -/
def emptyContext : RequestContext := ⟨none, none⟩

/-- The process-wide mutable state: the token cache and the ambient
request-credential slot. -/
structure St where
  tokenCache : TokenMap
  requestContext : RequestContext

/-- Result of a stateful, possibly-throwing computation together with the
state afterwards and the effects performed. -/
structure Step (α : Type) where
  result : Except JsError α
  state : St
  effects : List Effect

/-- `petfinderRequest(endpoint, params?)` (lines 178-229): read the ambient
credentials, obtain a token, issue the authenticated GET.  Query-parameter
flattening only alters the URL query string, which no claim observes; the
`apiFetch` effect records the endpoint path. -/
def petfinderRequest (endpoint : String) (env : Env) (st : St) : Step JsVal :=
  let cid := st.requestContext.clientId
  let csec := st.requestContext.clientSecret
  if !(optTruthy cid) || !(optTruthy csec) then
    ⟨.error (.plain "Request context missing credentials"), st, []⟩
  else
    let ts := getAccessToken (cid.getD "") (csec.getD "") env st.tokenCache
    match ts.result with
    | .error e => ⟨.error e, { st with tokenCache := ts.cache }, ts.effects⟩
    | .ok _token =>
      match env.apiResp with
      | .ok body =>
        ⟨.ok body, { st with tokenCache := ts.cache }, ts.effects ++ [.apiFetch endpoint]⟩
      | .httpError status statusText bodyText =>
        ⟨.error (.api status statusText bodyText
            ("Petfinder API error (" ++ toString status ++ "): " ++ bodyText)),
          { st with tokenCache := ts.cache }, ts.effects ++ [.apiFetch endpoint]⟩

/-! ## Input validation schemas (lines 123-169)

Each `z.object` schema is embedded as a function from the raw input to the
list of field-level issues (`z.parse` throws a `ZodError` carrying all issues
exactly when this list is nonempty).  `.optional()` accepts `undefined` only;
`.optional().default(x)` additionally substitutes the default for `undefined`,
which likewise validates, so both are embedded by skipping the check on
`undefined`. -/

def animalTypeValues : List String :=
  ["dog", "cat", "small-furry", "bird", "scales-fins-other", "barnyard", "rabbit", "horse"]

def sizeValues : List String := ["small", "medium", "large", "extra-large"]

def genderValues : List String := ["male", "female", "unknown"]

def ageValues : List String := ["baby", "young", "adult", "senior"]

def coatValues : List String := ["short", "medium", "long", "wire", "hairless", "curly"]

def statusValues : List String := ["adoptable", "adopted", "found"]

def sortValues : List String := ["recent", "-recent", "distance", "-distance", "random"]

def orgSortValues : List String :=
  ["distance", "-distance", "name", "-name", "country", "-country", "state", "-state"]

/-- `z.string()` at field `key`. -/
def checkStr (key : String) (v : JsVal) : List (String × String) :=
  match v with
  | .str _ => []
  | _ => [(key, "Expected string")]

/-- `z.enum([...])` at field `key`. -/
def checkEnum (key : String) (allowed : List String) (v : JsVal) : List (String × String) :=
  match v with
  | .str s => if allowed.contains s then [] else [(key, "Invalid enum value")]
  | _ => [(key, "Expected string")]

/-- `z.array(elem)` at field `key`. -/
def checkArrayOf (key : String) (elemCheck : JsVal → List (String × String)) (v : JsVal) :
    List (String × String) :=
  match v with
  | .arr xs => (xs.map elemCheck).flatten
  | _ => [(key, "Expected array")]

/-- `z.number().int().min(lo)` at field `key` (JS numbers are modelled as
integers, so `.int()` holds by construction). -/
def checkIntMin (key : String) (lo : Int) (v : JsVal) : List (String × String) :=
  match v with
  | .num n => if lo ≤ n then [] else [(key, "Too small")]
  | _ => [(key, "Expected number")]

/-- `z.number().int().min(lo).max(hi)` at field `key`. -/
def checkIntRange (key : String) (lo hi : Int) (v : JsVal) : List (String × String) :=
  match v with
  | .num n => if lo ≤ n ∧ n ≤ hi then [] else [(key, "Out of range")]
  | _ => [(key, "Expected number")]

/-- `z.number().int().positive()` at field `key`. -/
def checkPosInt (key : String) (v : JsVal) : List (String × String) :=
  match v with
  | .num n => if 0 < n then [] else [(key, "Too small: expected positive")]
  | _ => [(key, "Expected number")]

/-- `.optional()` / `.optional().default(x)` wrapper: `undefined` validates. -/
def checkOpt (check : JsVal → List (String × String)) (v : JsVal) : List (String × String) :=
  match v with
  | .undefined => []
  | w => check w

/-- A required field: `undefined` is an issue. -/
def checkReq (key : String) (check : JsVal → List (String × String)) (v : JsVal) :
    List (String × String) :=
  match v with
  | .undefined => [(key, "Required")]
  | w => check w

/-- `animalSearchSchema` (lines 123-139). -/
def validateAnimalSearch (v : JsVal) : List (String × String) :=
  match v with
  | .obj fields =>
    checkOpt (checkEnum "type" animalTypeValues) (objGetD fields "type") ++
    checkOpt (checkArrayOf "breed" (checkStr "breed")) (objGetD fields "breed") ++
    checkOpt (checkArrayOf "size" (checkEnum "size" sizeValues)) (objGetD fields "size") ++
    checkOpt (checkArrayOf "gender" (checkEnum "gender" genderValues)) (objGetD fields "gender") ++
    checkOpt (checkArrayOf "age" (checkEnum "age" ageValues)) (objGetD fields "age") ++
    checkOpt (checkArrayOf "color" (checkStr "color")) (objGetD fields "color") ++
    checkOpt (checkArrayOf "coat" (checkEnum "coat" coatValues)) (objGetD fields "coat") ++
    checkOpt (checkEnum "status" statusValues) (objGetD fields "status") ++
    checkOpt (checkStr "name") (objGetD fields "name") ++
    checkOpt (checkArrayOf "organization" (checkStr "organization"))
      (objGetD fields "organization") ++
    checkOpt (checkStr "location") (objGetD fields "location") ++
    checkOpt (checkPosInt "distance") (objGetD fields "distance") ++
    checkOpt (checkEnum "sort" sortValues) (objGetD fields "sort") ++
    checkOpt (checkIntMin "page" 1) (objGetD fields "page") ++
    checkOpt (checkIntRange "limit" 1 100) (objGetD fields "limit")
  | _ => [("", "Expected object")]

/-- `animalGetSchema` (lines 141-143): `{id: z.number().int().positive()}`. -/
def validateAnimalGet (v : JsVal) : List (String × String) :=
  match v with
  | .obj fields => checkReq "id" (checkPosInt "id") (objGetD fields "id")
  | _ => [("", "Expected object")]

/-- `organizationSearchSchema` (lines 145-155). -/
def validateOrganizationSearch (v : JsVal) : List (String × String) :=
  match v with
  | .obj fields =>
    checkOpt (checkStr "name") (objGetD fields "name") ++
    checkOpt (checkStr "location") (objGetD fields "location") ++
    checkOpt (checkPosInt "distance") (objGetD fields "distance") ++
    checkOpt (checkStr "country") (objGetD fields "country") ++
    checkOpt (checkStr "state") (objGetD fields "state") ++
    checkOpt (checkStr "query") (objGetD fields "query") ++
    checkOpt (checkEnum "sort" orgSortValues) (objGetD fields "sort") ++
    checkOpt (checkIntMin "page" 1) (objGetD fields "page") ++
    checkOpt (checkIntRange "limit" 1 100) (objGetD fields "limit")
  | _ => [("", "Expected object")]

/-- `organizationGetSchema` (lines 157-159): `{id: z.string()}`. -/
def validateOrganizationGet (v : JsVal) : List (String × String) :=
  match v with
  | .obj fields => checkReq "id" (checkStr "id") (objGetD fields "id")
  | _ => [("", "Expected object")]

/-- `animalTypesSchema` (line 161): the empty object schema accepts any
object (unknown keys are stripped). -/
def validateAnimalTypes (v : JsVal) : List (String × String) :=
  match v with
  | .obj _ => []
  | _ => [("", "Expected object")]

/-- `animalTypeSchema` (lines 163-165): `{type: z.string()}`. -/
def validateAnimalType (v : JsVal) : List (String × String) :=
  match v with
  | .obj fields => checkReq "type" (checkStr "type") (objGetD fields "type")
  | _ => [("", "Expected object")]

/-- `animalBreedsSchema` (lines 167-169): `{type: z.string()}`. -/
def validateAnimalBreeds (v : JsVal) : List (String × String) :=
  match v with
  | .obj fields => checkReq "type" (checkStr "type") (objGetD fields "type")
  | _ => [("", "Expected object")]

/-! ## MCP tool implementations (lines 288-416) -/

/-- One `{type: "text", text: ...}` content block. -/
structure ContentBlock where
  type : String
  text : String
deriving DecidableEq

/-- The `{content: [...]}` object every handler returns. -/
structure ToolOutput where
  content : List ContentBlock
deriving DecidableEq

/-- Common tail of every handler: perform the upstream request and wrap the
payload as a summary line plus the JSON-serialized payload, two text blocks. -/
def callAndWrap (endpoint : String) (mkSummary : JsVal → String) (env : Env) (st : St) :
    Step ToolOutput :=
  let r := petfinderRequest endpoint env st
  match r.result with
  | .ok body =>
    ⟨.ok ⟨[⟨"text", mkSummary body⟩, ⟨"text", jsStringify body⟩]⟩, r.state, r.effects⟩
  | .error e => ⟨.error e, r.state, r.effects⟩

/-- `result.animals?.length || 0` / `result.organizations?.length || 0`:
optional chaining yields `undefined` (hence `0`) unless the property is a
value with a `length`. -/
def jsLenOrZero (v : JsVal) : Int :=
  match v with
  | .arr xs => xs.length
  | .str s => s.length
  | _ => 0

/-- The defaults `searchPets` spreads under the user input (lines 290-296). -/
def searchPetsDefaults : List (String × JsVal) :=
  [("status", .str "adoptable"), ("sort", .str "recent"), ("page", .num 1), ("limit", .num 20)]

/-- `searchPets` (lines 288-312): merge defaults, validate (`.parse` throws a
`ZodError` on any issue), then search `/animals`. -/
def searchPets (input : JsVal) (env : Env) (st : St) : Step ToolOutput :=
  let merged := spreadMerge searchPetsDefaults input
  let issues := validateAnimalSearch merged
  if issues.isEmpty then
    callAndWrap "/animals"
      (fun r =>
        let n := jsLenOrZero (jsProp r "animals")
        s!"Found {n} pets matching your search criteria.")
      env st
  else
    ⟨.error (.zod issues), st, []⟩

/-- `getPet` (lines 314-328): no runtime validation; reads `input.id` (which
throws only for `undefined`/`null` input) and fetches `/animals/(id)`. -/
def getPet (input : JsVal) (env : Env) (st : St) : Step ToolOutput :=
  match jsGet input "id" with
  | .error m => ⟨.error (.plain m), st, []⟩
  | .ok idv =>
    let idStr := jsToString idv
    callAndWrap (s!"/animals/{idStr}") (fun _ => s!"Pet details for ID {idStr}:") env st

/-- The defaults `searchOrgs` spreads under the user input (lines 332-336). -/
def searchOrgsDefaults : List (String × JsVal) :=
  [("page", .num 1), ("limit", .num 20)]

/-- `searchOrgs` (lines 330-352): merge defaults, validate, then search
`/organizations`. -/
def searchOrgs (input : JsVal) (env : Env) (st : St) : Step ToolOutput :=
  let merged := spreadMerge searchOrgsDefaults input
  let issues := validateOrganizationSearch merged
  if issues.isEmpty then
    callAndWrap "/organizations"
      (fun r =>
        let n := jsLenOrZero (jsProp r "organizations")
        s!"Found {n} organizations matching your search criteria.")
      env st
  else
    ⟨.error (.zod issues), st, []⟩

/-- `getOrg` (lines 354-368): no runtime validation. -/
def getOrg (input : JsVal) (env : Env) (st : St) : Step ToolOutput :=
  match jsGet input "id" with
  | .error m => ⟨.error (.plain m), st, []⟩
  | .ok idv =>
    let idStr := jsToString idv
    callAndWrap (s!"/organizations/{idStr}")
      (fun _ => s!"Organization details for ID {idStr}:") env st

/-- `listAnimalTypes` (lines 370-384): ignores its input entirely. -/
def listAnimalTypes (_input : JsVal) (env : Env) (st : St) : Step ToolOutput :=
  callAndWrap "/types" (fun _ => "Available animal types:") env st

/-- `getAnimalTypeDetails` (lines 386-400): no runtime validation. -/
def getAnimalTypeDetails (input : JsVal) (env : Env) (st : St) : Step ToolOutput :=
  match jsGet input "type" with
  | .error m => ⟨.error (.plain m), st, []⟩
  | .ok tv =>
    let tStr := jsToString tv
    callAndWrap (s!"/types/{tStr}") (fun _ => s!"Animal type details for {tStr}:") env st

/-- `listAnimalBreeds` (lines 402-416): no runtime validation. -/
def listAnimalBreeds (input : JsVal) (env : Env) (st : St) : Step ToolOutput :=
  match jsGet input "type" with
  | .error m => ⟨.error (.plain m), st, []⟩
  | .ok tv =>
    let tStr := jsToString tv
    callAndWrap (s!"/types/{tStr}/breeds") (fun _ => s!"Available breeds for {tStr}:") env st

/-- The `allTools` handler map (lines 593-601), keyed by tool name. -/
def allTools (s : String) : Option (JsVal → Env → St → Step ToolOutput) :=
  if s = "pets.search" then some searchPets
  else if s = "pets.get" then some getPet
  else if s = "organizations.search" then some searchOrgs
  else if s = "organizations.get" then some getOrg
  else if s = "types.list" then some listAnimalTypes
  else if s = "types.get" then some getAnimalTypeDetails
  else if s = "breeds.list" then some listAnimalBreeds
  else none

/-- `allTools[name]` where `name` is the raw `params.name` value: JS property
access coerces the key to a string (ToPropertyKey / `String(name)`), so for
example the array `["pets.search"]` coerces to `"pets.search"` and resolves
to a handler, while `undefined`, numbers, booleans, `null` and plain objects
coerce to strings that match no registered tool name. -/
def toolHandler (name : JsVal) : Option (JsVal → Env → St → Step ToolOutput) :=
  allTools (jsToString name)

/-! ## MCP protocol implementation (lines 422-712) -/

/-- A JSON-RPC request id: `number | string`. -/
inductive RequestId where
  | num (n : Int)
  | str (s : String)
deriving DecidableEq

/-- `interface MCPRequest` — `id` and `params` are optional
(`params = JsVal.undefined` models an absent field). -/
structure MCPRequest where
  jsonrpc : String
  id : Option RequestId
  method : String
  params : JsVal

/-- The `data` payload attached to upstream-derived protocol errors.  (The
RFC 7807 enrichment that merges `type`/`title`/`detail`/`invalid-params` from
a JSON error body only refines this payload and is observed by no claim.) -/
structure ErrorData where
  status : Int
  title : String
  detail : String
deriving DecidableEq

/-- The `error` member of a response. -/
structure MCPError where
  code : Int
  message : String
  data : Option ErrorData
deriving DecidableEq

/-- Identifies which Zod schema a tool declares (`zodToMCPSchema` derives the
wire-format JSON schema from it; the derivation itself is outside the core,
per the specification, which treats schema declarations as opaque). -/
inductive SchemaId where
  | animalSearch
  | animalGet
  | organizationSearch
  | organizationGet
  | animalTypes
  | animalType
  | animalBreeds
deriving DecidableEq

/-- One entry of the `tools` catalog (lines 548-591). -/
structure ToolDef where
  name : String
  title : String
  description : String
  inputSchema : SchemaId
deriving DecidableEq

/-- `serverInfo` (lines 543-546). -/
structure ServerInfo where
  name : String
  version : String
deriving DecidableEq

/-- The `result` member of a response: one of the three method results. -/
inductive MCPResult where
  | initializeResult (protocolVersion : String) (toolsListChanged : Bool) (info : ServerInfo)
  | toolList (tools : List ToolDef)
  | content (blocks : List ContentBlock)
deriving DecidableEq

/-- `interface MCPResponse`: both `result` and `error` are optional fields;
which of them is populated is a property to prove, not a property of the
type. -/
structure MCPResponse where
  jsonrpc : String
  id : Option RequestId
  result : Option MCPResult
  error : Option MCPError
deriving DecidableEq

/-- `mapHTTPStatusToJSONRPCError` (lines 462-475).  The source lists
500/502/503/504 explicitly and has a default case; both return -32603, so the
embedding collapses them. -/
def mapHTTPStatusToJSONRPCError (status : Int) : Int :=
  if status = 400 then -32602
  else if status = 401 then -32001
  else if status = 403 then -32002
  else if status = 404 then -32003
  else if status = 429 then -32004
  else -32603

/-- `getErrorMessage` (lines 528-541). -/
def getErrorMessage (status : Int) : String :=
  if status = 400 then "Invalid request parameters"
  else if status = 401 then "Authentication failed - invalid credentials"
  else if status = 403 then "Access denied - insufficient permissions"
  else if status = 404 then "Resource not found"
  else if status = 429 then "Rate limit exceeded"
  else if status = 500 then "Internal server error"
  else if status = 502 then "Bad gateway"
  else if status = 503 then "Service unavailable"
  else if status = 504 then "Gateway timeout"
  else "Unknown error"

/-- `createErrorResponse(id, error, fallbackCode = -32603)` (lines 477-526):
a `PetfinderAPIError` is mapped through `mapHTTPStatusToJSONRPCError` and
carries structured data; any other error uses the fallback code and the
error's own message. -/
def createErrorResponse (id : Option RequestId) (e : JsError) (fallbackCode : Int) :
    MCPResponse :=
  match e with
  | .api status statusText _bodyText message =>
    { jsonrpc := "2.0", id := id, result := none,
      error := some
        { code := mapHTTPStatusToJSONRPCError status,
          message := getErrorMessage status,
          data := some ⟨status, statusText, message⟩ } }
  | .plain msg =>
    { jsonrpc := "2.0", id := id, result := none,
      error := some { code := fallbackCode, message := msg, data := none } }
  | .zod issues =>
    { jsonrpc := "2.0", id := id, result := none,
      error := some { code := fallbackCode, message := zodMessage issues, data := none } }

/-- `serverInfo` value. -/
def serverInfo : ServerInfo := ⟨"petfinder-mcp", "1.0.0"⟩

/-- The `tools` catalog (lines 548-591). -/
def tools : List ToolDef :=
  [⟨"pets.search", "Search for adoptable pets",
    "Search for adoptable pets by type, breed, size, location, and other criteria. Optional parameters: status (default: \"adoptable\"), sort (default: \"recent\"), page (default: 1), limit (default: 20).",
    .animalSearch⟩,
   ⟨"pets.get", "Get pet details",
    "Get detailed information about a specific pet by ID.", .animalGet⟩,
   ⟨"organizations.search", "Search for animal welfare organizations",
    "Search for animal welfare organizations by name, location, and other criteria. Optional parameters: sort, page (default: 1), limit (default: 20).",
    .organizationSearch⟩,
   ⟨"organizations.get", "Get organization details",
    "Get detailed information about a specific organization by ID.", .organizationGet⟩,
   ⟨"types.list", "List animal types",
    "Get a list of all available animal types.", .animalTypes⟩,
   ⟨"types.get", "Get animal type details",
    "Get detailed information about a specific animal type.", .animalType⟩,
   ⟨"breeds.list", "List animal breeds",
    "Get a list of breeds for a specific animal type.", .animalBreeds⟩]

/-- Inbound request headers: `headers.get(name)` (case-insensitive in the
platform; the two credential header names are only ever queried in their
canonical lower-case spelling, which the model uses directly). -/
def HeadersT : Type := String → Option String

/-- `extractCredentialsFromHeaders` (lines 603-616). -/
def extractCredentialsFromHeaders (headers : HeadersT) : Option String × Option String :=
  (headers "x-petfinder-client-id", headers "x-petfinder-client-secret")

/-- `const { name, arguments: args } = request.params;` — destructuring
throws a `TypeError` exactly when `params` is `undefined` or `null`; any
other value (object or primitive) is destructured, primitives yielding
`undefined` for both properties. -/
def destructureParams (params : JsVal) : Except JsError (JsVal × JsVal) :=
  match params with
  | .undefined => .error (.plain "Cannot destructure property name of request.params as it is undefined.")
  | .null => .error (.plain "Cannot destructure property name of request.params as it is null.")
  | v => .ok (jsProp v "name", jsProp v "arguments")

/-- `request.id || 'unknown'` of the unknown-method branch (line 705):
falsy ids (absent, `0`, `""`) are replaced by `'unknown'`. -/
def idOrUnknown : Option RequestId → Option RequestId
  | some (.num n) => if n = 0 then some (.str "unknown") else some (.num n)
  | some (.str s) => if s = "" then some (.str "unknown") else some (.str s)
  | none => some (.str "unknown")

/-- Message of the -32001 authentication-required error (line 666). -/
def authRequiredMsg : String :=
  "Authentication required - you need to pass both x-petfinder-client-id and x-petfinder-client-secret headers"

/-- `handleMCPRequest(request, headers)` (lines 618-712).  A `.error` result
models an exception escaping to the transport layer (only the `params`
destructuring can throw; every handler error is caught by the `try/catch`).
The `finally` block clears `requestContext` on every dispatch exit path. -/
def handleMCPRequest (req : MCPRequest) (headers : HeadersT) (env : Env) (st : St) :
    Step MCPResponse :=
  if req.method = "initialize" then
    ⟨.ok { jsonrpc := "2.0", id := req.id,
           result := some (.initializeResult "2024-11-05" true serverInfo), error := none },
      st, []⟩
  else if req.method = "tools/list" then
    ⟨.ok { jsonrpc := "2.0", id := req.id, result := some (.toolList tools), error := none },
      st, []⟩
  else if req.method = "tools/call" then
    match destructureParams req.params with
    | .error e => ⟨.error e, st, []⟩
    | .ok (name, args) =>
      let creds := extractCredentialsFromHeaders headers
      match toolHandler name with
      | none =>
        ⟨.ok { jsonrpc := "2.0", id := req.id, result := none,
               error := some
                 { code := -32601, message := "Tool " ++ jsToString name ++ " not found",
                   data := none } },
          st, [.credentialRead]⟩
      | some handler =>
        if !(optTruthy creds.1) || !(optTruthy creds.2) then
          ⟨.ok { jsonrpc := "2.0", id := req.id, result := none,
                 error := some { code := -32001, message := authRequiredMsg, data := none } },
            st, [.credentialRead]⟩
        else
          let hstep := handler args env { st with requestContext := ⟨creds.1, creds.2⟩ }
          match hstep.result with
          | .ok out =>
            ⟨.ok { jsonrpc := "2.0", id := req.id,
                   result := some (.content out.content), error := none },
              { hstep.state with requestContext := emptyContext },
              .credentialRead :: hstep.effects⟩
          | .error e =>
            ⟨.ok (createErrorResponse req.id e (-32603)),
              { hstep.state with requestContext := emptyContext },
              .credentialRead :: hstep.effects⟩
  else
    ⟨.ok { jsonrpc := "2.0", id := idOrUnknown req.id, result := none,
           error := some
             { code := -32601, message := "Method " ++ req.method ++ " not found",
               data := none } },
      st, []⟩

/-- An HTTP reply of the `/mcp` POST route carrying a JSON-RPC body. -/
structure HttpReply where
  status : Int
  body : MCPResponse
deriving DecidableEq

/-- The `POST /mcp` branch of `serve.fetch` (lines 770-813): a body that
fails `JSON.parse`, or an exception escaping `handleMCPRequest`, is converted
by the transport-level `catch` into `createErrorResponse('unknown', error,
-32700)` served with HTTP 400; otherwise the response is served with 200. -/
def serveMcpPost (parsed : Except JsError MCPRequest) (headers : HeadersT) (env : Env)
    (st : St) : HttpReply × St × List Effect :=
  match parsed with
  | .error e => ⟨⟨400, createErrorResponse (some (.str "unknown")) e (-32700)⟩, st, []⟩
  | .ok req =>
    let step := handleMCPRequest req headers env st
    match step.result with
    | .ok resp => ⟨⟨200, resp⟩, step.state, step.effects⟩
    | .error e =>
      ⟨⟨400, createErrorResponse (some (.str "unknown")) e (-32700)⟩, step.state, step.effects⟩

/-! ## Derived notions used by the claims -/

/-- An effect trace contains no upstream network call (neither the OAuth
token exchange nor an API call). -/
def noUpstream (effects : List Effect) : Prop :=
  ∀ e ∈ effects, e = .credentialRead

/-- Headers carrying both credential headers. -/
def goodHeaders : HeadersT := fun k =>
  if k = "x-petfinder-client-id" then some "cid"
  else if k = "x-petfinder-client-secret" then some "sec"
  else none

/-- Headers carrying no credentials. -/
def noHeaders : HeadersT := fun _ => none

/-- A state with an empty token cache and an empty request context. -/
def st0 : St := ⟨emptyTokenMap, emptyContext⟩

/-- A world where both upstream endpoints succeed. -/
def envOk : Env := ⟨0, .ok ⟨"Bearer", 3600, "tok1"⟩, .ok .null⟩

/-- A world where the token endpoint answers HTTP 401. -/
def envTok401 : Env := ⟨0, .httpError 401 "Unauthorized" "invalid credentials", .ok .null⟩

/-- A world where the token endpoint succeeds and the API answers HTTP 429. -/
def envApi429 : Env := ⟨0, .ok ⟨"Bearer", 3600, "tok1"⟩, .httpError 429 "Too Many Requests" "rate limited"⟩

/-! ## Claims -/

/-- Claim C4: `getAccessToken` fails with the missing-credentials error
whenever either `clientId` or `clientSecret` is empty/absent, before any cache
sweep, cache lookup, or network call; the token cache is returned unchanged
(in particular unswept) and no network effect occurs. -/
theorem getAccessToken_missing_credentials (clientId clientSecret : String) (env : Env)
    (cache : TokenMap) (h : clientId = "" ∨ clientSecret = "") :
    (getAccessToken clientId clientSecret env cache).result = .error (.plain missingCredsMsg) ∧
    (getAccessToken clientId clientSecret env cache).cache = cache ∧
    (getAccessToken clientId clientSecret env cache).effects = [] := by
  simp only [getAccessToken]
  rw [if_pos h]
  exact ⟨rfl, rfl, rfl⟩

/-- Witness for C4: concrete run with an empty client id. -/
theorem getAccessToken_missing_credentials_witness :
    (getAccessToken "" "sec" envOk emptyTokenMap).result = .error (.plain missingCredsMsg) ∧
    (getAccessToken "" "sec" envOk emptyTokenMap).cache = emptyTokenMap ∧
    (getAccessToken "" "sec" envOk emptyTokenMap).effects = [] :=
  getAccessToken_missing_credentials "" "sec" envOk emptyTokenMap (Or.inl rfl)

/-- The sweep keeps exactly the unexpired entries. -/
theorem cleanup_lookup_some (now : Int) (m : TokenMap) (k : String) (t : TokenEntry) :
    cleanupExpiredTokens now m k = some t ↔ m k = some t ∧ now < t.expires_at := by
  unfold cleanupExpiredTokens
  split
  · rename_i t0 heq
    rw [heq]
    by_cases hle : t0.expires_at ≤ now
    · rw [if_pos hle]
      constructor
      · intro h; exact absurd h (by simp)
      · rintro ⟨h1, h2⟩
        cases h1
        omega
    · rw [if_neg hle]
      constructor
      · intro h
        cases h
        exact ⟨rfl, by omega⟩
      · rintro ⟨h1, _⟩
        cases h1
        rfl
  · rename_i heq
    rw [heq]
    simp

/-- `getAccessToken` on a cache hit that is valid beyond the safety margin. -/
theorem getAccessToken_eq_cached (clientId clientSecret : String) (env : Env)
    (cache : TokenMap) (hne : ¬(clientId = "" ∨ clientSecret = "")) (t : TokenEntry)
    (ht : cache clientId = some t) (hm : env.now + 60 < t.expires_at) :
    getAccessToken clientId clientSecret env cache =
      ⟨.ok t.access_token, cleanupExpiredTokens env.now cache, []⟩ := by
  have hclean : cleanupExpiredTokens env.now cache clientId = some t :=
    (cleanup_lookup_some env.now cache clientId t).mpr ⟨ht, by omega⟩
  unfold getAccessToken
  rw [if_neg hne]
  dsimp only
  split
  · rename_i ct heq
    rw [hclean] at heq
    cases heq
    rw [if_pos (by omega)]
  · rename_i heq
    rw [hclean] at heq
    cases heq

/-- `getAccessToken` when no entry for the client id is valid beyond the
safety margin: it defers to the exchange over the swept cache. -/
theorem getAccessToken_eq_fetch (clientId clientSecret : String) (env : Env)
    (cache : TokenMap) (hne : ¬(clientId = "" ∨ clientSecret = ""))
    (hmiss : ∀ t, cache clientId = some t → t.expires_at ≤ env.now + 60) :
    getAccessToken clientId clientSecret env cache =
      fetchNewToken clientId env.now env (cleanupExpiredTokens env.now cache) := by
  unfold getAccessToken
  rw [if_neg hne]
  dsimp only
  split
  · rename_i ct heq
    have h2 := (cleanup_lookup_some env.now cache clientId ct).mp heq
    rw [if_neg (by have := hmiss ct h2.1; omega)]
  · rfl

/-- The exchange on a successful token response. -/
theorem fetchNewToken_ok_eq (clientId : String) (now : Int) (env : Env) (m : TokenMap)
    (resp : TokenResponse) (hresp : env.tokenResp = .ok resp) :
    fetchNewToken clientId now env m =
      ⟨.ok resp.access_token,
        tokenMapSet m clientId ⟨resp.access_token, now + resp.expires_in⟩,
        [.tokenFetch clientId]⟩ := by
  unfold fetchNewToken
  split
  · rename_i resp' heq
    rw [hresp] at heq
    cases heq
    rfl
  · rename_i s stx b heq
    rw [hresp] at heq
    cases heq

/-- The exchange on a failed token response. -/
theorem fetchNewToken_err_eq (clientId : String) (now : Int) (env : Env) (m : TokenMap)
    (s : Int) (stx b : String) (hresp : env.tokenResp = .httpError s stx b) :
    fetchNewToken clientId now env m =
      ⟨.error (.api s stx b ("OAuth token request failed (" ++ toString s ++ "): " ++ b)),
        m, [.tokenFetch clientId]⟩ := by
  unfold fetchNewToken
  split
  · rename_i resp' heq
    rw [hresp] at heq
    cases heq
  · rename_i s' stx' b' heq
    rw [hresp] at heq
    cases heq
    rfl

/-- Claim C3: `getAccessToken` returns the cached token without network
access exactly when the cached entry for the client id is valid beyond the
60-second margin; two acquisitions within the validity window perform exactly
one upstream call with the second returning the identical token; otherwise a
client-credentials exchange runs and stores
`{accessToken, expiresAt = now + expiresIn}` keyed by the client id,
overwriting any prior entry. -/
theorem getAccessToken_cache_behavior (clientId clientSecret : String) (env : Env)
    (cache : TokenMap) (hcid : clientId ≠ "") (hsec : clientSecret ≠ "") :
    (∀ t, cache clientId = some t → env.now + 60 < t.expires_at →
      (getAccessToken clientId clientSecret env cache).result = .ok t.access_token ∧
      (getAccessToken clientId clientSecret env cache).effects = []) ∧
    ((∀ t, cache clientId = some t → t.expires_at ≤ env.now + 60) →
      (getAccessToken clientId clientSecret env cache).effects = [.tokenFetch clientId]) ∧
    (∀ resp, env.tokenResp = .ok resp →
      (∀ t, cache clientId = some t → t.expires_at ≤ env.now + 60) →
      (getAccessToken clientId clientSecret env cache).result = .ok resp.access_token ∧
      (getAccessToken clientId clientSecret env cache).cache clientId =
        some ⟨resp.access_token, env.now + resp.expires_in⟩) ∧
    (∀ resp (env2 : Env), env.tokenResp = .ok resp → cache clientId = none →
      env2.now + 60 < env.now + resp.expires_in →
      (getAccessToken clientId clientSecret env cache).effects = [.tokenFetch clientId] ∧
      (getAccessToken clientId clientSecret env2
          (getAccessToken clientId clientSecret env cache).cache).effects = [] ∧
      (getAccessToken clientId clientSecret env2
          (getAccessToken clientId clientSecret env cache).cache).result =
        .ok resp.access_token) := by
  have hne : ¬(clientId = "" ∨ clientSecret = "") := by
    rintro (h | h)
    · exact hcid h
    · exact hsec h
  refine ⟨?_, ?_, ?_, ?_⟩
  · intro t ht hmargin
    rw [getAccessToken_eq_cached clientId clientSecret env cache hne t ht hmargin]
    exact ⟨rfl, rfl⟩
  · intro hexpired
    rw [getAccessToken_eq_fetch clientId clientSecret env cache hne hexpired]
    unfold fetchNewToken
    split <;> rfl
  · intro resp hresp hexpired
    rw [getAccessToken_eq_fetch clientId clientSecret env cache hne hexpired,
      fetchNewToken_ok_eq clientId env.now env _ resp hresp]
    exact ⟨rfl, by simp [tokenMapSet]⟩
  · intro resp env2 hresp hnone hwindow
    have hmiss : ∀ t, cache clientId = some t → t.expires_at ≤ env.now + 60 := by
      intro t ht
      rw [hnone] at ht
      cases ht
    have hstep1 : getAccessToken clientId clientSecret env cache =
        ⟨.ok resp.access_token,
          tokenMapSet (cleanupExpiredTokens env.now cache) clientId
            ⟨resp.access_token, env.now + resp.expires_in⟩,
          [.tokenFetch clientId]⟩ := by
      rw [getAccessToken_eq_fetch clientId clientSecret env cache hne hmiss,
        fetchNewToken_ok_eq clientId env.now env _ resp hresp]
    have hentry : (getAccessToken clientId clientSecret env cache).cache clientId =
        some ⟨resp.access_token, env.now + resp.expires_in⟩ := by
      rw [hstep1]
      simp [tokenMapSet]
    have hstep2 := getAccessToken_eq_cached clientId clientSecret env2
      (getAccessToken clientId clientSecret env cache).cache hne
      ⟨resp.access_token, env.now + resp.expires_in⟩ hentry (by dsimp only; omega)
    exact ⟨by rw [hstep1], by rw [hstep2], by rw [hstep2]⟩

/-- Witness for C3: a fresh acquisition performs one token fetch; a second
acquisition within the validity window performs none and returns the same
token. -/
theorem getAccessToken_cache_behavior_witness :
    (getAccessToken "cid" "sec" envOk emptyTokenMap).effects = [.tokenFetch "cid"] ∧
    (getAccessToken "cid" "sec" ⟨10, .httpError 500 "x" "y", .ok .null⟩
        (getAccessToken "cid" "sec" envOk emptyTokenMap).cache).effects = [] ∧
    (getAccessToken "cid" "sec" ⟨10, .httpError 500 "x" "y", .ok .null⟩
        (getAccessToken "cid" "sec" envOk emptyTokenMap).cache).result = .ok "tok1" :=
  (getAccessToken_cache_behavior "cid" "sec" envOk emptyTokenMap (by decide)
      (by decide)).2.2.2 ⟨"Bearer", 3600, "tok1"⟩ ⟨10, .httpError 500 "x" "y", .ok .null⟩
    rfl rfl (by decide)

/-- Claim C5 (amended): every acquisition past the credentials check sweeps
the whole cache — entries for client ids other than the requested one are
exactly the swept originals — and, provided any token delivered by the
exchange has a positive `expires_in`, the resulting cache holds no entry
whose expiry is at or before the sweep time. -/
theorem acquisition_sweeps_cache (clientId clientSecret : String) (env : Env)
    (cache : TokenMap) (hcid : clientId ≠ "") (hsec : clientSecret ≠ "")
    (hexp : ∀ resp, env.tokenResp = .ok resp → 0 < resp.expires_in) :
    (∀ k, k ≠ clientId →
      (getAccessToken clientId clientSecret env cache).cache k =
        cleanupExpiredTokens env.now cache k) ∧
    (∀ k t, (getAccessToken clientId clientSecret env cache).cache k = some t →
      env.now < t.expires_at) := by
  have hne : ¬(clientId = "" ∨ clientSecret = "") := by
    rintro (h | h)
    · exact hcid h
    · exact hsec h
  have hcleanfresh : ∀ k t, cleanupExpiredTokens env.now cache k = some t →
      env.now < t.expires_at := fun k t h => ((cleanup_lookup_some env.now cache k t).mp h).2
  have hfetch :
      (∀ k, k ≠ clientId →
        (fetchNewToken clientId env.now env (cleanupExpiredTokens env.now cache)).cache k =
          cleanupExpiredTokens env.now cache k) ∧
      (∀ k t,
        (fetchNewToken clientId env.now env (cleanupExpiredTokens env.now cache)).cache k =
          some t → env.now < t.expires_at) := by
    cases hresp : env.tokenResp with
    | ok resp =>
      rw [fetchNewToken_ok_eq clientId env.now env _ resp hresp]
      refine ⟨fun k hk => by simp [tokenMapSet, hk], fun k t h => ?_⟩
      revert h
      simp only [tokenMapSet]
      by_cases hk : k = clientId
      · rw [if_pos hk]
        intro h
        cases h
        have := hexp resp hresp
        dsimp only
        omega
      · rw [if_neg hk]
        exact hcleanfresh k t
    | httpError s stx b =>
      rw [fetchNewToken_err_eq clientId env.now env _ s stx b hresp]
      exact ⟨fun k _ => rfl, hcleanfresh⟩
  by_cases hv : ∃ t, cache clientId = some t ∧ env.now + 60 < t.expires_at
  · obtain ⟨t, ht, hm⟩ := hv
    rw [getAccessToken_eq_cached clientId clientSecret env cache hne t ht hm]
    exact ⟨fun k _ => rfl, hcleanfresh⟩
  · have hmiss : ∀ t, cache clientId = some t → t.expires_at ≤ env.now + 60 := by
      intro t ht
      by_contra hgt
      exact hv ⟨t, ht, by omega⟩
    rw [getAccessToken_eq_fetch clientId clientSecret env cache hne hmiss]
    exact hfetch

/-- Witness for C5 (amended): after a fresh acquisition at time 0 with a
3600-second token, the stored entry is unexpired. -/
theorem acquisition_sweeps_cache_witness : (0 : Int) < 3600 :=
  (acquisition_sweeps_cache "cid" "sec" envOk emptyTokenMap (by decide) (by decide)
      (by intro resp hr
          simp only [envOk] at hr
          injection hr with h
          rw [← h]
          decide)).2
    "cid" ⟨"tok1", 3600⟩ (by decide)

/-- Counterexample for C5 as stated: when the token endpoint answers with
`expires_in = 0`, the acquisition itself stores an entry whose `expires_at`
equals the sweep time, so the cache does contain an entry with
`expires_at <= now` right after the acquisition completes. -/
theorem acquisition_sweeps_cache_ctrex :
    (getAccessToken "a" "b" ⟨100, .ok ⟨"bearer", 0, "tok"⟩, .ok .null⟩ emptyTokenMap).cache "a" =
      some ⟨"tok", 100⟩ ∧
    ¬ ((100 : Int) < 100) := by
  exact ⟨by decide, by omega⟩

/-- Claim C6: the HTTP-status-to-protocol-error-code mapping is
400 to -32602, 401 to -32001, 403 to -32002, 404 to -32003, 429 to -32004,
anything else (5xx included) to -32603; every upstream-derived error envelope
carries the mapped code; an HTTP 401 from the token endpoint surfaces as
-32001 and an HTTP 429 from the animal-search endpoint as -32004. -/
theorem upstream_status_to_error_code (status : Int) (statusText bodyText msg : String)
    (id : Option RequestId) (fb : Int) :
    mapHTTPStatusToJSONRPCError 400 = -32602 ∧
    mapHTTPStatusToJSONRPCError 401 = -32001 ∧
    mapHTTPStatusToJSONRPCError 403 = -32002 ∧
    mapHTTPStatusToJSONRPCError 404 = -32003 ∧
    mapHTTPStatusToJSONRPCError 429 = -32004 ∧
    (status ∉ ([400, 401, 403, 404, 429] : List Int) →
      mapHTTPStatusToJSONRPCError status = -32603) ∧
    ((createErrorResponse id (.api status statusText bodyText msg) fb).error =
      some { code := mapHTTPStatusToJSONRPCError status, message := getErrorMessage status,
             data := some ⟨status, statusText, msg⟩ }) ∧
    ((serveMcpPost (.ok ⟨"2.0", some (.num 1), "tools/call",
        .obj [("name", .str "pets.get"), ("arguments", .obj [("id", .num 123)])]⟩)
        goodHeaders envTok401 st0).1.body.error.map MCPError.code = some (-32001)) ∧
    ((serveMcpPost (.ok ⟨"2.0", some (.num 2), "tools/call",
        .obj [("name", .str "pets.search"), ("arguments", .obj [])]⟩)
        goodHeaders envApi429 st0).1.body.error.map MCPError.code = some (-32004)) := by
  refine ⟨by decide, by decide, by decide, by decide, by decide, ?_, rfl, by decide, by decide⟩
  intro hmem
  simp only [List.mem_cons, List.not_mem_nil, or_false] at hmem
  push_neg at hmem
  obtain ⟨h1, h2, h3, h4, h5⟩ := hmem
  simp only [mapHTTPStatusToJSONRPCError]
  rw [if_neg h1, if_neg h2, if_neg h3, if_neg h4, if_neg h5]

/-- Witness for C6: HTTP 503 maps to -32603. -/
theorem upstream_status_to_error_code_witness :
    mapHTTPStatusToJSONRPCError 503 = -32603 :=
  (upstream_status_to_error_code 503 "Service Unavailable" "" "" none (-32603)).2.2.2.2.2.1
    (by decide)

/-- Claim C9: `tools/list` answers with exactly the 7 registered tools, in
order, touching neither the credentials nor any upstream endpoint (empty
effect trace) and leaving the state untouched — for any request id, params
and headers. -/
theorem toolsList_returns_seven (jsonrpc : String) (id : Option RequestId) (params : JsVal)
    (headers : HeadersT) (env : Env) (st : St) :
    (handleMCPRequest ⟨jsonrpc, id, "tools/list", params⟩ headers env st).result =
      .ok { jsonrpc := "2.0", id := id, result := some (.toolList tools), error := none } ∧
    tools.length = 7 ∧
    tools.map ToolDef.name = ["pets.search", "pets.get", "organizations.search",
      "organizations.get", "types.list", "types.get", "breeds.list"] ∧
    (handleMCPRequest ⟨jsonrpc, id, "tools/list", params⟩ headers env st).effects = [] ∧
    (handleMCPRequest ⟨jsonrpc, id, "tools/list", params⟩ headers env st).state = st :=
  ⟨rfl, rfl, rfl, rfl, rfl⟩

/-- Claim C8: after handling a `tools/call` request the ambient
request-credential slot is cleared to empty: a request entered with an empty
slot always leaves it empty (whatever the method and outcome, including a
thrown destructuring error), and any request that reaches dispatch (handler
found, credentials present) leaves it empty regardless of the slot's prior
content — success, validation failure and upstream failure alike, since the
`finally` clearing is unconditional. -/
theorem requestContext_cleared (req : MCPRequest) (headers : HeadersT) (env : Env)
    (cache : TokenMap) :
    ((handleMCPRequest req headers env ⟨cache, emptyContext⟩).state.requestContext =
      emptyContext) ∧
    (∀ (st : St) (name args : JsVal) (handler : JsVal → Env → St → Step ToolOutput),
      req.method = "tools/call" →
      destructureParams req.params = .ok (name, args) →
      toolHandler name = some handler →
      optTruthy (extractCredentialsFromHeaders headers).1 = true →
      optTruthy (extractCredentialsFromHeaders headers).2 = true →
      (handleMCPRequest req headers env st).state.requestContext = emptyContext) := by
  constructor
  · unfold handleMCPRequest
    dsimp only
    repeat' split
    all_goals rfl
  · intro st name args handler hm hp hh hc1 hc2
    obtain ⟨jr, rid, m, p⟩ := req
    dsimp only at hm hp
    subst hm
    unfold handleMCPRequest
    dsimp only
    rw [if_neg (by decide), if_neg (by decide), if_pos rfl]
    split
    · rename_i e heq
      rw [hp] at heq
      cases heq
    · rename_i name' args' heq
      rw [hp] at heq
      cases heq
      split
      · rename_i heq2
        rw [hh] at heq2
        cases heq2
      · rename_i handler' heq2
        rw [hh] at heq2
        cases heq2
        rw [if_neg (by simp [hc1, hc2])]
        split <;> rfl

/-- Witness for C8: a dispatched `tools/call` clears a previously non-empty
slot. -/
theorem requestContext_cleared_witness :
    (handleMCPRequest ⟨"2.0", some (.num 1), "tools/call",
        .obj [("name", .str "types.list"), ("arguments", .obj [])]⟩ goodHeaders envOk
        ⟨emptyTokenMap, ⟨some "leftover", some "leftover"⟩⟩).state.requestContext =
      emptyContext :=
  (requestContext_cleared ⟨"2.0", some (.num 1), "tools/call",
      .obj [("name", .str "types.list"), ("arguments", .obj [])]⟩ goodHeaders envOk
      emptyTokenMap).2
    ⟨emptyTokenMap, ⟨some "leftover", some "leftover"⟩⟩ (.str "types.list") (.obj [])
    listAnimalTypes rfl rfl rfl (by decide) (by decide)

/-- Claim C10 (amended): a `tools/call` whose `params` is absent or `null`
throws at the destructuring, and the transport catch turns that into a
-32700 parse-error envelope under the synthetic id `'unknown'` with HTTP
status 400, discarding the request's own id.  (Non-object primitive `params`
do not throw: destructuring yields `undefined` fields instead.) -/
theorem paramsAbsent_parse_error (jsonrpc : String) (id : Option RequestId)
    (headers : HeadersT) (env : Env) (st : St) (p : JsVal)
    (hp : p = JsVal.undefined ∨ p = JsVal.null) :
    (serveMcpPost (.ok ⟨jsonrpc, id, "tools/call", p⟩) headers env st).1.status = 400 ∧
    (serveMcpPost (.ok ⟨jsonrpc, id, "tools/call", p⟩) headers env st).1.body.id =
      some (.str "unknown") ∧
    ((serveMcpPost (.ok ⟨jsonrpc, id, "tools/call", p⟩) headers env st).1.body.error.map
      MCPError.code) = some (-32700) ∧
    (serveMcpPost (.ok ⟨jsonrpc, id, "tools/call", p⟩) headers env st).1.body.result = none ∧
    (serveMcpPost (.ok ⟨jsonrpc, id, "tools/call", p⟩) headers env st).2.1 = st := by
  rcases hp with h | h <;> subst h <;> exact ⟨rfl, rfl, rfl, rfl, rfl⟩

/-- Witness for C10 (amended): concrete absent-params request. -/
theorem paramsAbsent_parse_error_witness :
    (serveMcpPost (.ok ⟨"2.0", some (.num 7), "tools/call", JsVal.undefined⟩) noHeaders envOk
      st0).1.status = 400 ∧
    (serveMcpPost (.ok ⟨"2.0", some (.num 7), "tools/call", JsVal.undefined⟩) noHeaders envOk
      st0).1.body.id = some (.str "unknown") ∧
    ((serveMcpPost (.ok ⟨"2.0", some (.num 7), "tools/call", JsVal.undefined⟩) noHeaders envOk
      st0).1.body.error.map MCPError.code) = some (-32700) ∧
    (serveMcpPost (.ok ⟨"2.0", some (.num 7), "tools/call", JsVal.undefined⟩) noHeaders envOk
      st0).1.body.result = none ∧
    (serveMcpPost (.ok ⟨"2.0", some (.num 7), "tools/call", JsVal.undefined⟩) noHeaders envOk
      st0).2.1 = st0 :=
  paramsAbsent_parse_error "2.0" (some (.num 7)) noHeaders envOk st0 JsVal.undefined (Or.inl rfl)

/-- Counterexample for C10 as stated: a non-object `params` (the number 5)
does not throw — the request is answered 200 under its original id with the
-32601 tool-not-found error, not a -32700 parse error under `'unknown'`. -/
theorem paramsAbsent_parse_error_ctrex :
    (serveMcpPost (.ok ⟨"2.0", some (.num 7), "tools/call", .num 5⟩) noHeaders envOk
      st0).1.status = 200 ∧
    (serveMcpPost (.ok ⟨"2.0", some (.num 7), "tools/call", .num 5⟩) noHeaders envOk
      st0).1.body.id = some (.num 7) ∧
    ((serveMcpPost (.ok ⟨"2.0", some (.num 7), "tools/call", .num 5⟩) noHeaders envOk
      st0).1.body.error.map MCPError.code) = some (-32601) :=
  ⟨rfl, rfl, rfl⟩

/-- Claim C1 (amended): the two search tools validate the default-merged
input before any upstream interaction and throw a `ZodError` carrying the
field-level issues on mismatch, which dispatch surfaces as the error envelope
while the Upstream Client is never reached. -/
theorem searchTools_validate (req : MCPRequest) (headers : HeadersT) (env : Env) (st : St)
    (args : JsVal)
    (hm : req.method = "tools/call")
    (hc1 : optTruthy (extractCredentialsFromHeaders headers).1 = true)
    (hc2 : optTruthy (extractCredentialsFromHeaders headers).2 = true) :
    (destructureParams req.params = .ok (.str "pets.search", args) →
      validateAnimalSearch (spreadMerge searchPetsDefaults args) ≠ [] →
      (handleMCPRequest req headers env st).result =
        .ok (createErrorResponse req.id
          (.zod (validateAnimalSearch (spreadMerge searchPetsDefaults args))) (-32603)) ∧
      noUpstream (handleMCPRequest req headers env st).effects) ∧
    (destructureParams req.params = .ok (.str "organizations.search", args) →
      validateOrganizationSearch (spreadMerge searchOrgsDefaults args) ≠ [] →
      (handleMCPRequest req headers env st).result =
        .ok (createErrorResponse req.id
          (.zod (validateOrganizationSearch (spreadMerge searchOrgsDefaults args))) (-32603)) ∧
      noUpstream (handleMCPRequest req headers env st).effects) := by
  obtain ⟨jr, rid, m, p⟩ := req
  dsimp only at hm ⊢
  subst hm
  constructor
  · intro hp hv
    unfold handleMCPRequest
    dsimp only
    rw [if_neg (by decide), if_neg (by decide), if_pos rfl]
    split
    · rename_i e heq
      rw [hp] at heq
      cases heq
    · rename_i name' args' heq
      rw [hp] at heq
      cases heq
      split
      · rename_i heq2
        rw [show toolHandler (.str "pets.search") = some searchPets from rfl] at heq2
        cases heq2
      · rename_i handler heq2
        rw [show toolHandler (.str "pets.search") = some searchPets from rfl] at heq2
        cases heq2
        rw [if_neg (by simp [hc1, hc2])]
        have hfalse : (validateAnimalSearch (spreadMerge searchPetsDefaults args)).isEmpty
            = false := by
          rcases h : validateAnimalSearch (spreadMerge searchPetsDefaults args) with _ | ⟨a, l⟩
          · exact absurd h hv
          · rfl
        have hstep : ∀ stx : St, searchPets args env stx =
            ⟨.error (.zod (validateAnimalSearch (spreadMerge searchPetsDefaults args))),
              stx, []⟩ := by
          intro stx
          unfold searchPets
          dsimp only
          rw [hfalse]
          rw [if_neg (by simp)]
        rw [hstep]
        exact ⟨rfl, by intro e he; simpa using he⟩
  · intro hp hv
    unfold handleMCPRequest
    dsimp only
    rw [if_neg (by decide), if_neg (by decide), if_pos rfl]
    split
    · rename_i e heq
      rw [hp] at heq
      cases heq
    · rename_i name' args' heq
      rw [hp] at heq
      cases heq
      split
      · rename_i heq2
        rw [show toolHandler (.str "organizations.search") = some searchOrgs from rfl] at heq2
        cases heq2
      · rename_i handler heq2
        rw [show toolHandler (.str "organizations.search") = some searchOrgs from rfl] at heq2
        cases heq2
        rw [if_neg (by simp [hc1, hc2])]
        have hfalse : (validateOrganizationSearch (spreadMerge searchOrgsDefaults args)).isEmpty
            = false := by
          rcases h : validateOrganizationSearch (spreadMerge searchOrgsDefaults args)
            with _ | ⟨a, l⟩
          · exact absurd h hv
          · rfl
        have hstep : ∀ stx : St, searchOrgs args env stx =
            ⟨.error (.zod (validateOrganizationSearch (spreadMerge searchOrgsDefaults args))),
              stx, []⟩ := by
          intro stx
          unfold searchOrgs
          dsimp only
          rw [hfalse]
          rw [if_neg (by simp)]
        rw [hstep]
        exact ⟨rfl, by intro e he; simpa using he⟩

/-- Witness for C1 (amended): `pets.search` with an out-of-range `limit`
yields the validation error envelope with no upstream effect. -/
theorem searchTools_validate_witness :
    (handleMCPRequest ⟨"2.0", some (.num 3), "tools/call",
        .obj [("name", .str "pets.search"), ("arguments", .obj [("limit", .num 1000)])]⟩
        goodHeaders envOk st0).result =
      .ok (createErrorResponse (some (.num 3))
        (.zod (validateAnimalSearch (spreadMerge searchPetsDefaults
          (.obj [("limit", .num 1000)])))) (-32603)) ∧
    noUpstream (handleMCPRequest ⟨"2.0", some (.num 3), "tools/call",
        .obj [("name", .str "pets.search"), ("arguments", .obj [("limit", .num 1000)])]⟩
        goodHeaders envOk st0).effects :=
  (searchTools_validate ⟨"2.0", some (.num 3), "tools/call",
      .obj [("name", .str "pets.search"), ("arguments", .obj [("limit", .num 1000)])]⟩
      goodHeaders envOk st0 (.obj [("limit", .num 1000)]) rfl (by decide) (by decide)).1
    rfl (by decide)

/-- Counterexample for C1 as stated: `breeds.list` with arguments that do not
match its schema (missing required `type`) is dispatched with no validation —
both the token exchange and the API call happen (against the
`/types/undefined/breeds` endpoint) and the call succeeds. -/
theorem searchTools_validate_ctrex :
    validateAnimalBreeds (.obj []) ≠ [] ∧
    (handleMCPRequest ⟨"2.0", some (.num 1), "tools/call",
        .obj [("name", .str "breeds.list"), ("arguments", .obj [])]⟩ goodHeaders envOk
        st0).effects =
      [.credentialRead, .tokenFetch "cid", .apiFetch "/types/undefined/breeds"] ∧
    (handleMCPRequest ⟨"2.0", some (.num 1), "tools/call",
        .obj [("name", .str "breeds.list"), ("arguments", .obj [])]⟩ goodHeaders envOk
        st0).result.toOption =
      some { jsonrpc := "2.0", id := some (.num 1),
             result := some (.content [⟨"text", "Available breeds for undefined:"⟩,
               ⟨"text", "null"⟩]),
             error := none } :=
  ⟨by decide, by decide, by decide⟩

end PetfinderMCP
